import Mathlib

set_option maxRecDepth 100000

/-!
Verification development for a minimal e-learning backend
(`src/main.py`, `src/backend/schemas.py`).

The backend offers user registration/login and course listing over a
document store.  The store gateway (`database.py`: `db`, `create_document`,
`get_documents`) and the pymongo collection operations it wraps are not
part of the sources under `src/`; they are modelled from the spec as
explicit state passing over lists of typed documents.  `hashlib.sha256`
(an external library used by `hash_password`) is embedded as a full
SHA-256 implementation over `Nat` with explicit `% 2^32` truncation.
-/

/-! ## SHA-256 (embedding of `hashlib.sha256(...).hexdigest()`) -/

/-- Truncate to a 32-bit word, as all SHA-256 word operations do. -/
def w32 (n : Nat) : Nat := n % 4294967296

/-- Right rotation of a 32-bit word by `n` bits. -/
def rotr (n x : Nat) : Nat := w32 ((x >>> n) ||| (x <<< (32 - n)))

/-- SHA-256 `Ch(x,y,z) = (x ∧ y) ⊕ (¬x ∧ z)` on 32-bit words. -/
def chW (x y z : Nat) : Nat := (x &&& y) ^^^ ((x ^^^ 4294967295) &&& z)

/-- SHA-256 `Maj(x,y,z)` on 32-bit words. -/
def majW (x y z : Nat) : Nat := (x &&& y) ^^^ (x &&& z) ^^^ (y &&& z)

/-- SHA-256 big sigma-0. -/
def bigSigma0 (x : Nat) : Nat := (rotr 2 x) ^^^ (rotr 13 x) ^^^ (rotr 22 x)

/-- SHA-256 big sigma-1. -/
def bigSigma1 (x : Nat) : Nat := (rotr 6 x) ^^^ (rotr 11 x) ^^^ (rotr 25 x)

/-- SHA-256 small sigma-0 (message schedule). -/
def smallSigma0 (x : Nat) : Nat := (rotr 7 x) ^^^ (rotr 18 x) ^^^ (x >>> 3)

/-- SHA-256 small sigma-1 (message schedule). -/
def smallSigma1 (x : Nat) : Nat := (rotr 17 x) ^^^ (rotr 19 x) ^^^ (x >>> 10)

/-- The eight 32-bit working registers of the SHA-256 compression function. -/
structure Hash8 where
  a : Nat
  b : Nat
  c : Nat
  d : Nat
  e : Nat
  f : Nat
  g : Nat
  h : Nat
deriving DecidableEq, Repr

/-- SHA-256 initial hash value (FIPS 180-4 section 5.3.3, written in decimal). -/
def initH : Hash8 :=
  ⟨1779033703, 3144134277, 1013904242, 2773480762,
   1359893119, 2600822924, 528734635, 1541459225⟩

/-- The 64 SHA-256 round constants (FIPS 180-4 section 4.2.2, written in decimal). -/
def roundK : List Nat :=
  [1116352408, 1899447441, 3049323471, 3921009573, 961987163, 1508970993,
   2453635748, 2870763221, 3624381080, 310598401, 607225278, 1426881987,
   1925078388, 2162078206, 2614888103, 3248222580, 3835390401, 4022224774,
   264347078, 604807628, 770255983, 1249150122, 1555081692, 1996064986,
   2554220882, 2821834349, 2952996808, 3210313671, 3336571891, 3584528711,
   113926993, 338241895, 666307205, 773529912, 1294757372, 1396182291,
   1695183700, 1986661051, 2177026350, 2456956037, 2730485921, 2820302411,
   3259730800, 3345764771, 3516065817, 3600352804, 4094571909, 275423344,
   430227734, 506948616, 659060556, 883997877, 958139571, 1322822218,
   1537002063, 1747873779, 1955562222, 2024104815, 2227730452, 2361852424,
   2428436474, 2756734187, 3204031479, 3329325298]

/-- Extend a 16-word message block by `n` further schedule words. -/
def extendWords : Nat → List Nat → List Nat
  | 0, acc => acc
  | n + 1, acc =>
      let len := acc.length
      let w := w32 (smallSigma1 (acc.getD (len - 2) 0) + acc.getD (len - 7) 0 +
                    smallSigma0 (acc.getD (len - 15) 0) + acc.getD (len - 16) 0)
      extendWords n (acc ++ [w])

/-- One SHA-256 round, driven by the pair (round constant, schedule word). -/
def roundStep (st : Hash8) (kw : Nat × Nat) : Hash8 :=
  let t1 := w32 (st.h + bigSigma1 st.e + chW st.e st.f st.g + kw.1 + kw.2)
  let t2 := w32 (bigSigma0 st.a + majW st.a st.b st.c)
  ⟨w32 (t1 + t2), st.a, st.b, st.c, w32 (st.d + t1), st.e, st.f, st.g⟩

/-- Compress one 16-word block into the running hash value. -/
def compress (hv : Hash8) (block : List Nat) : Hash8 :=
  let ws := extendWords 48 block
  let fin := (roundK.zip ws).foldl roundStep hv
  ⟨w32 (hv.a + fin.a), w32 (hv.b + fin.b), w32 (hv.c + fin.c), w32 (hv.d + fin.d),
   w32 (hv.e + fin.e), w32 (hv.f + fin.f), w32 (hv.g + fin.g), w32 (hv.h + fin.h)⟩

/-- UTF-8 encoding of a single character (embedding of Python `str.encode()`). -/
def utf8EncodeChar (c : Char) : List Nat :=
  let u := c.toNat
  if u < 128 then [u]
  else if u < 2048 then [192 + u / 64, 128 + u % 64]
  else if u < 65536 then [224 + u / 4096, 128 + (u / 64) % 64, 128 + u % 64]
  else [240 + u / 262144, 128 + (u / 4096) % 64, 128 + (u / 64) % 64, 128 + u % 64]

/-- `k` bytes of `n`, most significant byte first. -/
def beBytes : Nat → Nat → List Nat
  | 0, _ => []
  | k + 1, n => beBytes k (n / 256) ++ [n % 256]

/-- SHA-256 padding: append `0x80`, zero bytes, and the 64-bit bit length. -/
def padBytes (msg : List Nat) : List Nat :=
  let zeros := (64 - ((msg.length + 9) % 64)) % 64
  msg ++ [128] ++ List.replicate zeros 0 ++ beBytes 8 (msg.length * 8)

/-- Group bytes into 32-bit words, big-endian. -/
def bytesToWords : List Nat → List Nat
  | b0 :: b1 :: b2 :: b3 :: rest =>
      (((b0 * 256 + b1) * 256 + b2) * 256 + b3) :: bytesToWords rest
  | _ => []

/-- Split a word list into 16-word blocks, structurally recursing on a fuel
bound so that the kernel can evaluate it. -/
def toBlocks16Fuel : Nat → List Nat → List (List Nat)
  | 0, _ => []
  | _, [] => []
  | fuel + 1, x :: xs => ((x :: xs).take 16) :: toBlocks16Fuel fuel ((x :: xs).drop 16)

/-- Split a word list into 16-word blocks. -/
def toBlocks16 (l : List Nat) : List (List Nat) := toBlocks16Fuel l.length l

/-- The eight 32-bit words of the SHA-256 digest of a string. -/
def sha256Words (s : String) : List Nat :=
  let bytes := padBytes ((s.data.map utf8EncodeChar).flatten)
  let blocks := toBlocks16 (bytesToWords bytes)
  let fin := blocks.foldl compress initH
  [fin.a, fin.b, fin.c, fin.d, fin.e, fin.f, fin.g, fin.h]

/-- Lower-case hex digit for a value below 16. -/
def hexDigit (n : Nat) : Char := Char.ofNat (if n < 10 then 48 + n else 87 + n)

/-- Eight-character lower-case hex rendering of a 32-bit word. -/
def hex8 (x : Nat) : List Char :=
  [hexDigit (x / 268435456 % 16), hexDigit (x / 16777216 % 16),
   hexDigit (x / 1048576 % 16), hexDigit (x / 65536 % 16),
   hexDigit (x / 4096 % 16), hexDigit (x / 256 % 16),
   hexDigit (x / 16 % 16), hexDigit (x % 16)]

/-- SHA-256 hex digest of a string: embedding of
`hashlib.sha256(s.encode()).hexdigest()`. -/
def sha256hex (s : String) : String := String.mk ((sha256Words s).map hex8).flatten

/-- Embedding of `hash_password` (src/main.py line 22). -/
def hash_password (password : String) : String := sha256hex password

/-! ## Data model (src/backend/schemas.py) and the document store -/

/-- Embedding of the `User` pydantic model (src/backend/schemas.py lines 4-9).
The role literal and defaults are enforced at the call sites that build users. -/
structure User where
  name : String
  email : String
  password_hash : String
  role : String
  is_active : Bool
deriving DecidableEq, Repr

/-- Embedding of the `Course` pydantic model (src/backend/schemas.py lines 11-15). -/
structure Course where
  title : String
  category : String
  level : Option String
  description : Option String
deriving DecidableEq, Repr

/-- Modelled from the spec: a course document as held by the document store,
carrying the store's internal identifier (Mongo's `_id`, here a `Nat`)
alongside the course fields. -/
structure CourseDoc where
  internalId : Nat
  course : Course
deriving DecidableEq, Repr

/-- Modelled from the spec: the document store state behind `database.db`
(not under src/).  `available := false` plays the role of `db is None`;
`users` and `courses` are the two collections used by the core;
`nextId` generates fresh internal identifiers for inserted course documents. -/
structure Store where
  available : Bool
  users : List User
  courses : List CourseDoc
  nextId : Nat
deriving DecidableEq, Repr

/-- Modelled from the spec: `users.find_one({"email": e})` of the external
driver — the first stored user whose email equals `e`, if any. -/
def find_one_user (users : List User) (e : String) : Option User :=
  users.find? (fun u => u.email == e)

/-- Modelled from the spec: inserting one user document
(`users.insert_one` / `create_document("user", u)` of database.py, not under src/). -/
def insert_user (s : Store) (u : User) : Store :=
  { s with users := s.users ++ [u] }

/-- Modelled from the spec: `courses.insert_many(samples)` — insert the batch
in order, each document receiving a fresh internal identifier. -/
def insert_many_courses (s : Store) (cs : List Course) : Store :=
  cs.foldl (fun st c =>
    { st with courses := st.courses ++ [⟨st.nextId, c⟩], nextId := st.nextId + 1 }) s

/-- Modelled from the spec: `get_documents("course")` of database.py (not under
src/) — all documents of the course collection, in store order. -/
def get_documents_course (s : Store) : List CourseDoc := s.courses

/-! ## Seeding (src/main.py lines 26-62) -/

/-- The two baseline accounts of `ensure_default_users` (src/main.py lines 29-44). -/
def default_users : List User :=
  [{ name := "Admin", email := "admin@elearning.com",
     password_hash := hash_password "admin123", role := "admin", is_active := true },
   { name := "Faculty", email := "faculty@elearning.com",
     password_hash := hash_password "faculty123", role := "faculty", is_active := true }]

/-- Embedding of `ensure_default_users` (src/main.py lines 26-48): insert each
baseline user only when no stored user has its email; no-op when the store
handle is unavailable. -/
def ensure_default_users (s : Store) : Store :=
  if s.available = false then s
  else default_users.foldl (fun st u =>
    if (find_one_user st.users u.email).isSome then st else insert_user st u) s

/-- The four sample courses of `seed_samples` (src/main.py lines 55-60).
The source dicts carry no description key; the optional field is absent. -/
def sample_courses : List Course :=
  [{ title := "Web Development", category := "Courses", level := some "Beginner", description := none },
   { title := "Cyber Security", category := "Courses", level := some "Intermediate", description := none },
   { title := "Python", category := "Programming Languages", level := some "Beginner", description := none },
   { title := "C++", category := "Programming Languages", level := some "Intermediate", description := none }]

/-- Embedding of `seed_samples` (src/main.py lines 51-62): insert the sample
batch only when the course collection is empty (`count_documents({}) == 0`);
no-op when the store handle is unavailable. -/
def seed_samples (s : Store) : Store :=
  if s.available = false then s
  else if s.courses.length = 0 then insert_many_courses s sample_courses
  else s

/-- Embedding of the startup seeding sequence (src/main.py lines 65-71):
`ensure_default_users()` then `seed_samples()`. -/
def startup_seed (s : Store) : Store := seed_samples (ensure_default_users s)

/-! ## Request / response shapes and HTTP errors (src/main.py lines 75-90) -/

/-- Embedding of `RegisterRequest` (src/main.py lines 75-78): exactly the
fields name, email, password are accepted from a register request. -/
structure RegisterRequest where
  name : String
  email : String
  password : String
deriving DecidableEq, Repr

/-- Embedding of `LoginRequest` (src/main.py lines 81-83). -/
structure LoginRequest where
  email : String
  password : String
deriving DecidableEq, Repr

/-- Embedding of `AuthResponse` (src/main.py lines 86-90). -/
structure AuthResponse where
  name : String
  email : String
  role : String
  token : String
deriving DecidableEq, Repr

/-- Embedding of fastapi's `HTTPException(status_code, detail)` as raised by
the handlers. -/
structure HTTPError where
  status_code : Nat
  detail : String
deriving DecidableEq, Repr

/-! ## Auth handlers (src/main.py lines 93-125) -/

/-- Embedding of the `register` handler (src/main.py lines 93-110).  Raising
`HTTPException` is modelled as `Except.error`, which aborts before any store
mutation, so an error leaves the store unchanged; success returns the
response together with the updated store. -/
def register (s : Store) (req : RegisterRequest) : Except HTTPError (AuthResponse × Store) :=
  if s.available = false then Except.error ⟨500, "Database not available"⟩
  else if (find_one_user s.users req.email).isSome then
    Except.error ⟨400, "Email already registered"⟩
  else
    let user : User := { name := req.name, email := req.email,
                         password_hash := hash_password req.password,
                         role := "student", is_active := true }
    let s2 := insert_user s user
    let token := hash_password (req.email ++ "|" ++ req.password)
    Except.ok ({ name := user.name, email := user.email, role := user.role, token := token }, s2)

/-- Embedding of the `login` handler (src/main.py lines 113-125).  The store
is read-only here.  `found.get("role", "student")` is `found.role` in the
typed model, where every stored user document carries a role. -/
def login (s : Store) (req : LoginRequest) : Except HTTPError AuthResponse :=
  if s.available = false then Except.error ⟨500, "Database not available"⟩
  else
    match find_one_user s.users req.email with
    | none => Except.error ⟨401, "Invalid credentials"⟩
    | some found =>
        if found.password_hash ≠ hash_password req.password then
          Except.error ⟨401, "Invalid credentials"⟩
        else
          Except.ok { name := found.name, email := found.email, role := found.role,
                      token := hash_password (req.email ++ "|" ++ req.password) }

/-! ## Course listing (src/main.py lines 128-138) -/

/-- A course item as returned by `GET /courses`: the store document with the
internal identifier re-encoded as the string field `id` (the `_id` key is
popped, so no field under the native name remains). -/
structure CourseItem where
  id : String
  title : String
  category : String
  level : Option String
  description : Option String
deriving DecidableEq, Repr

/-- Embedding of the body of the loop in `list_courses` (src/main.py lines
132-135): `it["id"] = str(it.pop("_id"))`. -/
def courseDocToItem (d : CourseDoc) : CourseItem :=
  { id := toString d.internalId, title := d.course.title, category := d.course.category,
    level := d.course.level, description := d.course.description }

/-- The response shape of `GET /courses`: `{"items": items}` on success and
`{"items": [], "error": str(e)}` on a store-read failure. -/
structure CoursesResponse where
  items : List CourseItem
  error : Option String
deriving DecidableEq, Repr

/-- Embedding of the `list_courses` handler (src/main.py lines 128-138),
as a function of the outcome of the `get_documents("course")` gateway call
(database.py, not under src/): a successful read yields the converted items,
a raised store exception is caught and masked into an empty success-shaped
response carrying the error text. -/
def list_courses (r : Except String (List CourseDoc)) : CoursesResponse :=
  match r with
  | Except.ok items => { items := items.map courseDocToItem, error := none }
  | Except.error e => { items := [], error := some e }

/-- The empty, reachable store: no users, no courses. -/
def empty_store : Store := { available := true, users := [], courses := [], nextId := 0 }

/-! ## Helper lemmas -/

/-- Finding a user by email in an extended collection: when the prefix of the
collection has no match, the search continues in the appended part. -/
theorem find_one_user_append (l1 l2 : List User) (e : String)
    (h : find_one_user l1 e = none) :
    find_one_user (l1 ++ l2) e = find_one_user l2 e := by
  unfold find_one_user at *
  rw [List.find?_append, h, Option.none_or]

/-- The hex digest produced by `sha256hex` always has 64 characters. -/
theorem sha256hex_length (s : String) : (sha256hex s).length = 64 := rfl

/-! ## Claim theorems -/

/-- Claim C1: for every valid (name, email, password) with an available store
and no existing User with that email, register succeeds, and an immediately
following login with the same email and password succeeds and returns the very
same response — in particular the same token value. -/
theorem register_login_roundtrip (s : Store) (name email password : String)
    (hav : s.available = true) (hnone : find_one_user s.users email = none) :
    ∃ (resp : AuthResponse) (s2 : Store),
      register s ⟨name, email, password⟩ = Except.ok (resp, s2) ∧
      login s2 ⟨email, password⟩ = Except.ok resp := by
  refine ⟨⟨name, email, "student", hash_password (email ++ "|" ++ password)⟩,
          insert_user s ⟨name, email, hash_password password, "student", true⟩, ?_, ?_⟩
  · simp [register, hav, hnone]
  · have hf : find_one_user
        (insert_user s ⟨name, email, hash_password password, "student", true⟩).users email =
        some ⟨name, email, hash_password password, "student", true⟩ := by
      show find_one_user (s.users ++ [_]) email = _
      rw [find_one_user_append _ _ _ hnone]
      simp [find_one_user]
    simp [login, insert_user, hav, hf] at hf ⊢
    simp [login, hav, hf]

/-- Witness for C1 at a concrete input. -/
theorem register_login_roundtrip_witness :
    empty_store.available = true ∧
    find_one_user empty_store.users "alice@x.com" = none ∧
    (∃ (resp : AuthResponse) (s2 : Store),
      register empty_store ⟨"Alice", "alice@x.com", "pw1"⟩ = Except.ok (resp, s2) ∧
      login s2 ⟨"alice@x.com", "pw1"⟩ = Except.ok resp) :=
  ⟨rfl, rfl, register_login_roundtrip empty_store "Alice" "alice@x.com" "pw1" rfl rfl⟩

/-- Claim C2: the token returned by both register and login is the pure
function `hash_password (email ++ "|" ++ password)` of the credentials —
the same hasher used for password storage — so any two calls with identical
email and password yield identical tokens. -/
theorem token_pure_function :
    (∀ s req resp s2, register s req = Except.ok (resp, s2) →
      resp.token = hash_password (req.email ++ "|" ++ req.password)) ∧
    (∀ s req resp, login s req = Except.ok resp →
      resp.token = hash_password (req.email ++ "|" ++ req.password)) ∧
    (∀ e1 p1 e2 p2, e1 = e2 → p1 = p2 →
      hash_password (e1 ++ "|" ++ p1) = hash_password (e2 ++ "|" ++ p2)) := by
  refine ⟨?_, ?_, ?_⟩
  · intro s req resp s2 h
    unfold register at h
    split at h
    · simp at h
    · split at h
      · simp at h
      · rw [Except.ok.injEq, Prod.mk.injEq] at h
        rw [← h.1]
  · intro s req resp h
    unfold login at h
    split at h
    · simp at h
    · split at h
      · simp at h
      · split at h
        · simp at h
        · rw [Except.ok.injEq] at h
          rw [← h]
  · intro e1 p1 e2 p2 he hp
    rw [he, hp]

/-- Witness for C2 at a concrete input. -/
theorem token_pure_function_witness :
    ∃ resp s2, register empty_store ⟨"Alice", "alice@x.com", "pw1"⟩ = Except.ok (resp, s2) ∧
      resp.token = hash_password ("alice@x.com" ++ "|" ++ "pw1") :=
  ⟨_, _, rfl, token_pure_function.1 empty_store ⟨"Alice", "alice@x.com", "pw1"⟩ _ _ rfl⟩

/-- Counterexample to claim C3: the Unavailable error does not arise on
register only — a login call against an unavailable store handle fails with
status 500 "Database not available", a failure mode that is not the
Unauthorized (401) error. -/
theorem login_unavailable_counterexample :
    login { available := false, users := [], courses := [], nextId := 0 } ⟨"a@b.com", "pw"⟩ =
      Except.error ⟨500, "Database not available"⟩ ∧ (500 : Nat) ≠ 401 :=
  ⟨rfl, by decide⟩

/-- Amended claim C3: the Unavailable error arises on both register and login
when the store handle is unavailable; for every login call against an
available store, the only failure mode is Unauthorized (401, "Invalid
credentials"), raised exactly when no User is found with the given email or
when the found user's stored password_hash differs from the hash of the
supplied password. -/
theorem login_error_taxonomy (s : Store) (req : LoginRequest)
    (hav : s.available = true) :
    (∀ e, login s req = Except.error e → e = ⟨401, "Invalid credentials"⟩) ∧
    ((∃ e, login s req = Except.error e) ↔
      (find_one_user s.users req.email).elim True
        (fun u => u.password_hash ≠ hash_password req.password)) := by
  cases hf : find_one_user s.users req.email with
  | none =>
      refine ⟨?_, ?_⟩
      · intro e he
        simp [login, hav, hf] at he
        exact he.symm
      · simp only [Option.elim, iff_true]
        exact ⟨⟨401, "Invalid credentials"⟩, by simp [login, hav, hf]⟩
  | some u =>
      by_cases hp : u.password_hash = hash_password req.password
      · refine ⟨?_, ?_⟩
        · intro e he
          simp [login, hav, hf, hp] at he
        · simp only [Option.elim]
          constructor
          · rintro ⟨e, he⟩
            simp [login, hav, hf, hp] at he
          · intro hne
            exact absurd hp hne
      · refine ⟨?_, ?_⟩
        · intro e he
          simp [login, hav, hf, hp] at he
          exact he.symm
        · simp only [Option.elim]
          exact ⟨fun _ => hp, fun _ => ⟨⟨401, "Invalid credentials"⟩, by simp [login, hav, hf, hp]⟩⟩

/-- Witness for the amended C3 at a concrete input: a store holding one user
and a login request carrying that user's email but the wrong password. -/
theorem login_error_taxonomy_witness :
    (Store.mk true [⟨"U", "u@x.com", hash_password "pw1", "student", true⟩] [] 0).available
        = true ∧
    ((∀ e, login (Store.mk true [⟨"U", "u@x.com", hash_password "pw1", "student", true⟩] [] 0)
          ⟨"u@x.com", "nope"⟩ = Except.error e → e = ⟨401, "Invalid credentials"⟩) ∧
     ((∃ e, login (Store.mk true [⟨"U", "u@x.com", hash_password "pw1", "student", true⟩] [] 0)
          ⟨"u@x.com", "nope"⟩ = Except.error e) ↔
       (find_one_user [⟨"U", "u@x.com", hash_password "pw1", "student", true⟩] "u@x.com").elim
         True (fun u => u.password_hash ≠ hash_password "nope"))) :=
  ⟨rfl, login_error_taxonomy
    (Store.mk true [⟨"U", "u@x.com", hash_password "pw1", "student", true⟩] [] 0)
    ⟨"u@x.com", "nope"⟩ rfl⟩

/-- Claim C4: with an available store holding no user under the given email,
registering twice with that email (any names, any passwords) succeeds the
first time and fails with Conflict (HTTP 400, "Email already registered") the
second time, and exactly one user document with that email is persisted. -/
theorem register_twice_conflict (s : Store) (name1 name2 email pw1 pw2 : String)
    (hav : s.available = true) (hnone : find_one_user s.users email = none) :
    ∃ resp s2, register s ⟨name1, email, pw1⟩ = Except.ok (resp, s2) ∧
      register s2 ⟨name2, email, pw2⟩ = Except.error ⟨400, "Email already registered"⟩ ∧
      (s2.users.filter (fun u => u.email == email)).length = 1 := by
  refine ⟨⟨name1, email, "student", hash_password (email ++ "|" ++ pw1)⟩,
          insert_user s ⟨name1, email, hash_password pw1, "student", true⟩, ?_, ?_, ?_⟩
  · simp [register, hav, hnone]
  · have hf : find_one_user
        (insert_user s ⟨name1, email, hash_password pw1, "student", true⟩).users email =
        some ⟨name1, email, hash_password pw1, "student", true⟩ := by
      show find_one_user (s.users ++ [_]) email = _
      rw [find_one_user_append _ _ _ hnone]
      simp [find_one_user]
    simp [register, insert_user, hav] at hf ⊢
    simp [hf]
  · have hnil : s.users.filter (fun u => u.email == email) = [] := by
      rw [List.filter_eq_nil_iff]
      intro a ha
      exact List.find?_eq_none.1 hnone a ha
    simp [insert_user, List.filter_append, hnil]

/-- Witness for C4 at a concrete input. -/
theorem register_twice_conflict_witness :
    empty_store.available = true ∧
    find_one_user empty_store.users "bob@x.com" = none ∧
    (∃ resp s2, register empty_store ⟨"Bob", "bob@x.com", "pw1"⟩ = Except.ok (resp, s2) ∧
      register s2 ⟨"Robert", "bob@x.com", "pw2"⟩ =
        Except.error ⟨400, "Email already registered"⟩ ∧
      (s2.users.filter (fun u => u.email == "bob@x.com")).length = 1) :=
  ⟨rfl, rfl, register_twice_conflict empty_store "Bob" "Robert" "bob@x.com" "pw1" "pw2" rfl rfl⟩

/-- Claim C5: the seeding routine is idempotent — starting from the empty
store, invoking it twice leaves the store exactly as one invocation does:
exactly the 2 baseline users (admin@elearning.com with role admin and
faculty@elearning.com with role faculty) and exactly 4 sample courses. -/
theorem seeding_idempotent :
    startup_seed (startup_seed empty_store) = startup_seed empty_store ∧
    (startup_seed empty_store).users.map (fun u => (u.email, u.role)) =
      [("admin@elearning.com", "admin"), ("faculty@elearning.com", "faculty")] ∧
    (startup_seed empty_store).users.length = 2 ∧
    (startup_seed empty_store).courses.map (fun d => d.course) = sample_courses ∧
    (startup_seed empty_store).courses.length = 4 :=
  ⟨by decide, by decide, by decide, by decide, by decide⟩

/-- Claim C6: every successful register persists exactly one new User with
role student and is_active true, built only from the request's name, email
and password; its stored password_hash is the 64-character hash of the
password, never the plaintext (for any password that is not itself
64 characters long). -/
theorem register_persists_student_hashed (s : Store) (req : RegisterRequest)
    (resp : AuthResponse) (s2 : Store) (h : register s req = Except.ok (resp, s2)) :
    s2.users = s.users ++ [{ name := req.name, email := req.email,
                             password_hash := hash_password req.password,
                             role := "student", is_active := true }] ∧
    (hash_password req.password).length = 64 ∧
    (req.password.length ≠ 64 → hash_password req.password ≠ req.password) := by
  refine ⟨?_, sha256hex_length req.password, ?_⟩
  · unfold register at h
    split at h
    · simp at h
    · split at h
      · simp at h
      · rw [Except.ok.injEq, Prod.mk.injEq] at h
        rw [← h.2]
        rfl
  · intro hlen heq
    exact hlen (heq ▸ sha256hex_length req.password)

/-- Witness for C6 at a concrete input. -/
theorem register_persists_student_hashed_witness :
    ∃ resp s2, register empty_store ⟨"Alice", "alice@x.com", "pw1"⟩ = Except.ok (resp, s2) ∧
      (s2.users = empty_store.users ++ [{ name := "Alice", email := "alice@x.com",
                                          password_hash := hash_password "pw1",
                                          role := "student", is_active := true }] ∧
       (hash_password "pw1").length = 64 ∧
       (("pw1" : String).length ≠ 64 → hash_password "pw1" ≠ "pw1")) :=
  ⟨_, _, rfl, register_persists_student_hashed empty_store ⟨"Alice", "alice@x.com", "pw1"⟩ _ _ rfl⟩

/-- Claim C7: every store-access failure during course listing is masked into
a success-shaped response carrying the empty item sequence together with the
error description; no hard failure propagates to the caller. -/
theorem list_courses_masks_failure :
    ∀ e, list_courses (Except.error e) = { items := [], error := some e } :=
  fun _ => rfl

/-- Claim C8: every item returned by course listing carries an `id` field that
is the store's internal identifier rendered as a string (the item shape has no
`_id`-named field at all); on the freshly seeded, otherwise-empty store the
listing returns exactly 4 items with pairwise distinct string ids. -/
theorem list_courses_id_projection :
    (∀ docs, (list_courses (Except.ok docs)).items.map CourseItem.id =
      docs.map (fun d => toString d.internalId)) ∧
    (list_courses (Except.ok (get_documents_course (startup_seed empty_store)))).items.length
      = 4 ∧
    ((list_courses (Except.ok (get_documents_course (startup_seed empty_store)))).items.map
      CourseItem.id).Nodup := by
  refine ⟨?_, by rfl, by decide⟩
  intro docs
  simp only [list_courses, List.map_map]
  rfl

/-- Claim C9: login never inspects the stored is_active flag — when the user
found under the request's email has a matching password_hash, login succeeds
even though is_active is false. -/
theorem login_ignores_is_active (s : Store) (req : LoginRequest) (u : User)
    (hav : s.available = true)
    (hfind : find_one_user s.users req.email = some u)
    (hpw : u.password_hash = hash_password req.password)
    (_hinact : u.is_active = false) :
    login s req = Except.ok { name := u.name, email := u.email, role := u.role,
                              token := hash_password (req.email ++ "|" ++ req.password) } := by
  simp [login, hav, hfind, hpw]

/-- Witness for C9 at a concrete input: a deactivated stored user. -/
theorem login_ignores_is_active_witness :
    (Store.mk true [⟨"Dora", "d@x.com", hash_password "pw1", "student", false⟩] [] 0).available
        = true ∧
    find_one_user [⟨"Dora", "d@x.com", hash_password "pw1", "student", false⟩] "d@x.com" =
      some ⟨"Dora", "d@x.com", hash_password "pw1", "student", false⟩ ∧
    (User.mk "Dora" "d@x.com" (hash_password "pw1") "student" false).password_hash =
      hash_password "pw1" ∧
    (User.mk "Dora" "d@x.com" (hash_password "pw1") "student" false).is_active = false ∧
    login (Store.mk true [⟨"Dora", "d@x.com", hash_password "pw1", "student", false⟩] [] 0)
        ⟨"d@x.com", "pw1"⟩ =
      Except.ok { name := "Dora", email := "d@x.com", role := "student",
                  token := hash_password ("d@x.com" ++ "|" ++ "pw1") } :=
  ⟨rfl, rfl, rfl, rfl,
    login_ignores_is_active
      (Store.mk true [⟨"Dora", "d@x.com", hash_password "pw1", "student", false⟩] [] 0)
      ⟨"d@x.com", "pw1"⟩
      ⟨"Dora", "d@x.com", hash_password "pw1", "student", false⟩ rfl rfl rfl rfl⟩

/-- Claim C10: the two login failure branches — unknown email, and known email
with wrong password — produce identical observable outputs (status 401, detail
"Invalid credentials"), so the error response does not reveal whether an email
is registered. -/
theorem login_failure_indistinguishable (s1 s2 : Store) (req1 req2 : LoginRequest) (u : User)
    (hav1 : s1.available = true) (hav2 : s2.available = true)
    (hnone : find_one_user s1.users req1.email = none)
    (hfind : find_one_user s2.users req2.email = some u)
    (hpw : u.password_hash ≠ hash_password req2.password) :
    login s1 req1 = Except.error ⟨401, "Invalid credentials"⟩ ∧
    login s2 req2 = Except.error ⟨401, "Invalid credentials"⟩ ∧
    login s1 req1 = login s2 req2 := by
  have h1 : login s1 req1 = Except.error ⟨401, "Invalid credentials"⟩ := by
    simp [login, hav1, hnone]
  have h2 : login s2 req2 = Except.error ⟨401, "Invalid credentials"⟩ := by
    simp [login, hav2, hfind, hpw]
  exact ⟨h1, h2, h1.trans h2.symm⟩

/-- Witness for C10 at concrete inputs: a login with an unregistered email and
a login with a registered email but wrong password. -/
theorem login_failure_indistinguishable_witness :
    empty_store.available = true ∧
    (Store.mk true [⟨"Eve", "e@x.com", hash_password "pw1", "student", true⟩] [] 0).available
        = true ∧
    find_one_user empty_store.users "ghost@x.com" = none ∧
    find_one_user [⟨"Eve", "e@x.com", hash_password "pw1", "student", true⟩] "e@x.com" =
      some ⟨"Eve", "e@x.com", hash_password "pw1", "student", true⟩ ∧
    (User.mk "Eve" "e@x.com" (hash_password "pw1") "student" true).password_hash ≠
      hash_password "pw2" ∧
    (login empty_store ⟨"ghost@x.com", "pw"⟩ = Except.error ⟨401, "Invalid credentials"⟩ ∧
     login (Store.mk true [⟨"Eve", "e@x.com", hash_password "pw1", "student", true⟩] [] 0)
        ⟨"e@x.com", "pw2"⟩ = Except.error ⟨401, "Invalid credentials"⟩ ∧
     login empty_store ⟨"ghost@x.com", "pw"⟩ =
       login (Store.mk true [⟨"Eve", "e@x.com", hash_password "pw1", "student", true⟩] [] 0)
        ⟨"e@x.com", "pw2"⟩) :=
  ⟨rfl, rfl, rfl, rfl, by decide,
    login_failure_indistinguishable empty_store
      (Store.mk true [⟨"Eve", "e@x.com", hash_password "pw1", "student", true⟩] [] 0)
      ⟨"ghost@x.com", "pw"⟩ ⟨"e@x.com", "pw2"⟩
      ⟨"Eve", "e@x.com", hash_password "pw1", "student", true⟩ rfl rfl rfl rfl (by decide)⟩
